import Mathlib

/-!
Verification of the sleep-data aggregation toolkit (`tools/sleep_tools.py`).

The development shallowly embeds the data model and the operations of the
`SleepAPITools` class: record normalization (`search_sleep_by_date` lines
316-329 and `get_sleep_data` lines 404-427), the display summary block
(`_format_sleep_data_for_display` lines 244-258), the single-page fetch
(`get_sleep_data`), the two pagination loops (`search_sleep_by_date`,
`get_all_sleep_data`), the trend computation (`get_recent_sleep_trends`)
and the consistency score (`_calculate_consistency_score`).

Python floats are modelled as exact rationals (reals where a square root
occurs); `round(x, n)` is modelled as rounding to the nearest multiple of
10 ^ (-n) (ties half-up; the half-even tie-break of Python floats is not
observable for the inputs treated here).  HTTP traffic is modelled by a
function from the request index to the decoded response, so the loops
become pure functions of that oracle; request counters and exit-cause tags
are model instrumentation and carry no behaviour.
-/

namespace SleepAgent

/-- Models Python `round(x, 2)`: round to the nearest hundredth. -/
def round2 (q : ℚ) : ℚ := (round (100 * q) : ℤ) / 100

/-- Models Python `int(x)` on a numeric value: truncation toward zero. -/
def ratTrunc (q : ℚ) : ℤ := if 0 ≤ q then ⌊q⌋ else ⌈q⌉

/-- A JSON field value as seen by the numeric coercions `float(...)` /
`int(...)`: either a value the coercion accepts (a number, or a numeric
string), carried as an exact rational, or a value on which the coercion
raises `ValueError` / `TypeError` (a non-numeric string, JSON null, ...). -/
inductive JNum where
  | num (q : ℚ)
  | bad
  deriving DecidableEq

/-- A raw sleep record as decoded from the API response body.  A field that
is absent from the JSON object is `none` (Python `entry.get(k)` returns
`None`).  `start_time` and `end_time` are kept as opaque strings, exactly as
the code does. -/
structure RawRecord where
  start_time : String
  end_time : String
  duration : Option JNum
  quality : Option JNum
  respiratory_rate : Option JNum
  deriving DecidableEq

/-- A normalized sleep entry, the dict built at `sleep_tools.py` lines
318-325 (and 406-419; the `metadata` pass-through of `get_sleep_data`,
opaque identifiers never read by any computation here, is omitted). -/
structure NormEntry where
  date : String
  start_time : String
  end_time : String
  duration_minutes : ℚ
  quality : Option ℤ
  respiratory_rate : Option ℚ
  deriving DecidableEq

/-- Models Python `s.split("T")[0]`: the prefix of `s` before the first
`T` (the whole of `s` when no `T` occurs). -/
def splitTHead (s : String) : String := ⟨s.data.takeWhile (fun c => c != 'T')⟩

/-- Models `float(entry.get("duration", 0))`: an absent field defaults to
`0`; a present numeric value is taken as is; a non-coercible value raises
(`none` here). -/
def coerceDur : Option JNum → Option ℚ
  | none => some 0
  | some (.num q) => some q
  | some .bad => none

/-- Models `f(entry.get(k)) if entry.get(k) is not None else None` for a
numeric coercion `f`: absent stays null, numeric is kept, non-coercible
raises (outer `none`). -/
def coerceOpt : Option JNum → Option (Option ℚ)
  | none => some none
  | some (.num q) => some (some q)
  | some .bad => none

/-- Normalization of one raw record, `sleep_tools.py` lines 316-329:
builds the entry dict; a `ValueError`/`TypeError` from any numeric coercion
drops the record (the `except` clause logs and continues). -/
def normalizeRecord (r : RawRecord) : Option NormEntry :=
  match coerceDur r.duration, coerceOpt r.quality, coerceOpt r.respiratory_rate with
  | some d, some q, some rr =>
      some { date := splitTHead r.start_time
             start_time := r.start_time
             end_time := r.end_time
             duration_minutes := round2 (d / 60)
             quality := q.map ratTrunc
             respiratory_rate := rr.map round2 }
  | _, _, _ => none

/-- Normalization of a page of records: malformed records are skipped, the
rest keep their order. -/
def normalizePage (records : List RawRecord) : List NormEntry :=
  records.filterMap normalizeRecord

theorem takeWhile_append_cons {p : Char → Bool} (l₁ l₂ : List Char) (c : Char)
    (h : ∀ x ∈ l₁, p x) (hc : p c = false) :
    (l₁ ++ c :: l₂).takeWhile p = l₁ := by
  induction l₁ with
  | nil => simp [List.takeWhile_cons, hc]
  | cons a as ih =>
      have ha : p a = true := h a (by simp)
      simp only [List.cons_append, List.takeWhile_cons, ha, if_true]
      have : ∀ x ∈ as, p x := fun x hx => h x (by simp [hx])
      simp [ih this]

theorem splitTHead_append (dp rest : String) (h : ∀ c ∈ dp.data, c ≠ 'T') :
    splitTHead (dp ++ "T" ++ rest) = dp := by
  have hT : ("T" : String).data = ['T'] := rfl
  have hdata : (dp ++ "T" ++ rest).data = dp.data ++ 'T' :: rest.data := by
    simp [String.data_append, hT]
  unfold splitTHead
  rw [hdata]
  have := takeWhile_append_cons (p := fun c => c != 'T') dp.data rest.data 'T'
    (fun x hx => by simpa using h x hx) (by simp)
  rw [this]

/-- C7: a raw record with all fields present and numeric normalizes to an
entry whose `duration_minutes` equals `duration / 60` rounded to 2 decimals
and whose `date` equals the date component of `start_time`; a record with
`duration` absent normalizes with `duration_minutes = 0` and is still
included; a record whose `duration` fails numeric coercion is dropped. -/
theorem normalizeRecord_spec :
    (∀ (r : RawRecord) (d q rr : ℚ) (dp rest : String),
        r.duration = some (JNum.num d) → r.quality = some (JNum.num q) →
        r.respiratory_rate = some (JNum.num rr) →
        r.start_time = dp ++ "T" ++ rest → (∀ c ∈ dp.data, c ≠ 'T') →
        normalizeRecord r = some
          { date := dp
            start_time := r.start_time
            end_time := r.end_time
            duration_minutes := round2 (d / 60)
            quality := some (ratTrunc q)
            respiratory_rate := some (round2 rr) }) ∧
    (∀ r : RawRecord, r.duration = none → r.quality ≠ some JNum.bad →
        r.respiratory_rate ≠ some JNum.bad →
        ∃ e, normalizeRecord r = some e ∧ e.duration_minutes = 0) ∧
    (∀ r : RawRecord, r.duration = some JNum.bad → normalizeRecord r = none) := by
  refine ⟨?_, ?_, ?_⟩
  · intro r d q rr dp rest hd hq hrr hst hdp
    simp [normalizeRecord, hd, hq, hrr, coerceDur, coerceOpt, hst,
      splitTHead_append dp rest hdp]
  · intro r hd hq hrr
    have hq2 : coerceOpt r.quality ≠ none := by
      cases h : r.quality with
      | none => simp [coerceOpt]
      | some j => cases j with
        | num q => simp [coerceOpt]
        | bad => exact absurd h hq
    have hr2 : coerceOpt r.respiratory_rate ≠ none := by
      cases h : r.respiratory_rate with
      | none => simp [coerceOpt]
      | some j => cases j with
        | num q => simp [coerceOpt]
        | bad => exact absurd h hrr
    obtain ⟨qv, hqv⟩ := Option.ne_none_iff_exists'.mp hq2
    obtain ⟨rv, hrv⟩ := Option.ne_none_iff_exists'.mp hr2
    refine ⟨{ date := splitTHead r.start_time, start_time := r.start_time,
              end_time := r.end_time, duration_minutes := round2 (0 / 60),
              quality := qv.map ratTrunc, respiratory_rate := rv.map round2 }, ?_, ?_⟩
    · simp [normalizeRecord, hd, coerceDur, hqv, hrv]
    · norm_num [round2]
  · intro r hd
    simp [normalizeRecord, hd, coerceDur]

/-- Witness for `normalizeRecord_spec` at a concrete fully-populated raw
record: 27000 seconds normalize to 450.0 minutes and the date is the part
of `start_time` before the `T`. -/
theorem normalizeRecord_spec_witness :
    normalizeRecord
      { start_time := "2024-01-15T07:30:00Z", end_time := "2024-01-15T15:00:00Z",
        duration := some (JNum.num 27000), quality := some (JNum.num 85),
        respiratory_rate := some (JNum.num (161 / 10)) } = some
      { date := "2024-01-15", start_time := "2024-01-15T07:30:00Z",
        end_time := "2024-01-15T15:00:00Z", duration_minutes := 450,
        quality := some 85, respiratory_rate := some (161 / 10) } := by
  have hw := normalizeRecord_spec.1
    { start_time := "2024-01-15T07:30:00Z", end_time := "2024-01-15T15:00:00Z",
      duration := some (JNum.num 27000), quality := some (JNum.num 85),
      respiratory_rate := some (JNum.num (161 / 10)) }
    27000 85 (161 / 10) "2024-01-15" "07:30:00Z" rfl rfl rfl (by decide) (by decide)
  rw [hw]
  norm_num [round2, ratTrunc, round_eq]

/-! ### The display summary block (`_format_sleep_data_for_display`) -/

/-- The values of the summary block emitted at `sleep_tools.py` lines
244-258: average and range of the duration values (in hours), average
quality, and the shown-entry count.  The `:.1f` display formatting is
presentation only; the values here are the exact numbers being formatted. -/
structure SummaryBlock where
  avgSleepHours : Option ℚ
  minSleepHours : Option ℚ
  maxSleepHours : Option ℚ
  avgQuality : Option ℚ
  shownCount : ℕ
  deriving DecidableEq

/-- Line 248: the duration list of the summary block.  The Python guard
`if e.get("duration_minutes")` is a truthiness test, so entries whose
duration is exactly 0 are excluded. -/
def displayDurations (entries : List NormEntry) : List ℚ :=
  entries.filterMap fun e =>
    if e.duration_minutes = 0 then none else some (e.duration_minutes / 60)

/-- Line 249: quality values of entries whose quality is not null. -/
def displayQualities (entries : List NormEntry) : List ℤ :=
  entries.filterMap fun e => e.quality

/-- The summary block computed by `_format_sleep_data_for_display` over
exactly the entry list it receives (lines 244-258). -/
def summaryBlock (entries : List NormEntry) : SummaryBlock :=
  let durations := displayDurations entries
  let qualities := displayQualities entries
  { avgSleepHours := if durations = [] then none
      else some (durations.sum / (durations.length : ℚ))
    minSleepHours := durations.min?
    maxSleepHours := durations.max?
    avgQuality := if qualities = [] then none
      else some ((qualities.sum : ℚ) / (qualities.length : ℚ))
    shownCount := entries.length }

/-- The summary block that `search_sleep_by_date` renders (lines 341-344):
the accumulated entries are sliced to `all_entries[:30]` before being
passed to `_format_sleep_data_for_display`, so the summary is computed over
that slice. -/
def searchDisplayedSummary (all_entries : List NormEntry) : SummaryBlock :=
  summaryBlock (all_entries.take 30)

/-- A 1-hour entry used in the 31-entry accumulation below. -/
def entryA : NormEntry :=
  { date := "d", start_time := "s", end_time := "e",
    duration_minutes := 60, quality := none, respiratory_rate := none }

/-- A 100-hour entry used in the 31-entry accumulation below. -/
def entryB : NormEntry :=
  { date := "d", start_time := "s", end_time := "e",
    duration_minutes := 6000, quality := none, respiratory_rate := none }

/-- A 31-entry accumulation: thirty 1-hour entries followed by one
100-hour entry, used to exhibit the display-slice truncation. -/
def cexEntries : List NormEntry := List.replicate 30 entryA ++ [entryB]

theorem filterMap_replicate_some {α β : Type} (f : α → Option β) (a : α) (b : β) (n : ℕ)
    (h : f a = some b) : (List.replicate n a).filterMap f = List.replicate n b := by
  induction n with
  | zero => simp
  | succ n ih => simp [List.replicate_succ, List.filterMap_cons, h, ih]

theorem displayDurations_cex :
    displayDurations cexEntries = List.replicate 30 1 ++ [100] := by
  unfold cexEntries displayDurations
  rw [List.filterMap_append]
  congr 1
  · rw [filterMap_replicate_some
      (fun e => if e.duration_minutes = 0 then none else some (e.duration_minutes / 60))
      entryA 1 30 (by norm_num [entryA])]
  · simp only [List.filterMap_cons, List.filterMap_nil]
    norm_num [entryB]

theorem displayDurations_cex_take :
    displayDurations (cexEntries.take 30) = List.replicate 30 1 := by
  have h : cexEntries.take 30 = List.replicate 30 entryA := by
    unfold cexEntries
    have h30 : (List.replicate 30 entryA).length = 30 := List.length_replicate 30 entryA
    calc (List.replicate 30 entryA ++ [entryB]).take 30
        = (List.replicate 30 entryA ++ [entryB]).take (List.replicate 30 entryA).length := by
          rw [h30]
      _ = List.replicate 30 entryA := List.take_left _ _
  rw [h]
  unfold displayDurations
  rw [filterMap_replicate_some
    (fun e => if e.duration_minutes = 0 then none else some (e.duration_minutes / 60))
    entryA 1 30 (by norm_num [entryA])]

/-- C1 counterexample: with 31 analyzed entries, the rendered average sleep
duration is 1 hour (computed over the 30 displayed rows only), while the
average over the full analyzed set is 130/31 hours — the two differ by
99/31 — so the rendered summary statistics are not those of the full
analyzed set. -/
theorem search_summary_not_full_set :
    (searchDisplayedSummary cexEntries).avgSleepHours = some 1 ∧
    (summaryBlock cexEntries).avgSleepHours = some (130 / 31) ∧
    (summaryBlock cexEntries).avgSleepHours.getD 0 -
      (searchDisplayedSummary cexEntries).avgSleepHours.getD 0 = 99 / 31 := by
  have h1 : (searchDisplayedSummary cexEntries).avgSleepHours = some 1 := by
    unfold searchDisplayedSummary summaryBlock
    simp only [displayDurations_cex_take]
    rw [if_neg (by simp)]
    norm_num [List.sum_replicate, nsmul_eq_mul]
  have h2 : (summaryBlock cexEntries).avgSleepHours = some (130 / 31) := by
    unfold summaryBlock
    simp only [displayDurations_cex]
    rw [if_neg (by simp)]
    norm_num [List.sum_append, List.sum_replicate, nsmul_eq_mul]
  exact ⟨h1, h2, by rw [h1, h2]; norm_num⟩

/-- C1 (amended): the summary statistics rendered by `search_sleep_by_date`
are computed over only the first 30 accumulated entries (exactly the
displayed rows), and therefore agree with the statistics of the full
analyzed set precisely when at most 30 entries were analyzed. -/
theorem search_summary_over_displayed (entries : List NormEntry) :
    searchDisplayedSummary entries = summaryBlock (entries.take 30) ∧
    (entries.length ≤ 30 → searchDisplayedSummary entries = summaryBlock entries) := by
  refine ⟨rfl, fun h => ?_⟩
  unfold searchDisplayedSummary
  rw [List.take_of_length_le h]

/-- Witness for `search_summary_over_displayed`: on a single-entry list the
rendered summary and the full-set summary coincide. -/
theorem search_summary_over_displayed_witness :
    searchDisplayedSummary
        [{ date := "d", start_time := "s", end_time := "e",
           duration_minutes := 60, quality := some 80, respiratory_rate := none }] =
      summaryBlock
        [{ date := "d", start_time := "s", end_time := "e",
           duration_minutes := 60, quality := some 80, respiratory_rate := none }] :=
  (search_summary_over_displayed _).2 (by decide)

/-! ### The consistency score (`_calculate_consistency_score`) -/

/-- Rounding a real to 2 decimals, models `round(x, 2)` (ties half-up; the
half-even tie-break of Python floats is unobservable for the inputs treated
here). -/
noncomputable def round2R (x : ℝ) : ℝ := (round (100 * x) : ℤ) / 100

/-- Mean of a list of reals, line 615: `sum(durations) / len(durations)`. -/
noncomputable def listMean (l : List ℝ) : ℝ := l.sum / (l.length : ℝ)

/-- Population standard deviation, lines 616-617:
`variance = sum((x - mean) ** 2) / len`, `std_dev = variance ** 0.5`
(for a nonnegative base `** 0.5` is the square root). -/
noncomputable def popStdDev (l : List ℝ) : ℝ :=
  Real.sqrt ((l.map fun x => (x - listMean l) ^ 2).sum / (l.length : ℝ))

/-- `_calculate_consistency_score` (lines 609-623): 0.0 for fewer than two
durations; otherwise `100 * (1 - min(std_dev / 120, 1))` rounded to two
decimals, with 120 the fixed reference standard deviation in minutes. -/
noncomputable def calculate_consistency_score (durations : List ℝ) : ℝ :=
  if durations.length < 2 then 0
  else round2R (100 * (1 - min (popStdDev durations / 120) 1))

/-- The score as a function of the standard deviation alone — the shape the
spec ascribes to it. -/
noncomputable def consistencyOfStd (s : ℝ) : ℝ :=
  round2R (100 * (1 - min (s / 120) 1))

theorem round2R_mono {x y : ℝ} (h : x ≤ y) : round2R x ≤ round2R y := by
  unfold round2R
  have hr : round (100 * x) ≤ round (100 * y) := by
    rw [round_eq, round_eq]
    exact Int.floor_mono (by linarith)
  have hc : ((round (100 * x) : ℤ) : ℝ) ≤ ((round (100 * y) : ℤ) : ℝ) := by
    exact_mod_cast hr
  linarith

theorem round2R_intCast (n : ℤ) : round2R ((n : ℝ)) = (n : ℝ) := by
  unfold round2R
  rw [show (100 : ℝ) * (n : ℝ) = ((100 * n : ℤ) : ℝ) by push_cast; ring, round_intCast]
  push_cast
  field_simp

theorem round2R_bounds {x : ℝ} (h0 : 0 ≤ x) (h1 : x ≤ 100) :
    0 ≤ round2R x ∧ round2R x ≤ 100 := by
  constructor
  · have h := round2R_mono h0
    rw [show (0 : ℝ) = ((0 : ℤ) : ℝ) by norm_num, round2R_intCast] at h
    exact_mod_cast h
  · have h := round2R_mono h1
    rw [show (100 : ℝ) = ((100 : ℤ) : ℝ) by norm_num, round2R_intCast] at h
    exact_mod_cast h

/-- C6: the consistency score is 0.0 for fewer than two durations and is
otherwise `100 * (1 - min(stddev / 120, 1))` rounded to 2 decimals, with
the population standard deviation and the fixed 120-minute reference; in
particular durations [420, 480] (stddev 30) score exactly 75.0. -/
theorem consistency_score_formula :
    (∀ l : List ℝ, l.length < 2 → calculate_consistency_score l = 0) ∧
    (∀ l : List ℝ, 2 ≤ l.length →
        calculate_consistency_score l =
          round2R (100 * (1 - min (popStdDev l / 120) 1))) ∧
    calculate_consistency_score [420, 480] = 75 := by
  refine ⟨?_, ?_, ?_⟩
  · intro l h
    simp [calculate_consistency_score, h]
  · intro l h
    unfold calculate_consistency_score
    rw [if_neg (by omega)]
  · have hmean : listMean [420, 480] = 450 := by
      unfold listMean
      norm_num
    have hstd : popStdDev [(420 : ℝ), 480] = 30 := by
      unfold popStdDev
      rw [hmean]
      norm_num
      rw [show (900 : ℝ) = 30 ^ 2 by norm_num]
      exact Real.sqrt_sq (by norm_num)
    unfold calculate_consistency_score
    rw [if_neg (by norm_num), hstd]
    rw [show (100 : ℝ) * (1 - min ((30 : ℝ) / 120) 1) = 75 by
      rw [min_eq_left (by norm_num)]; norm_num]
    rw [show (75 : ℝ) = ((75 : ℤ) : ℝ) by norm_num, round2R_intCast]

/-- Witness for `consistency_score_formula`: a single duration scores 0,
and a two-duration list takes the closed-form value. -/
theorem consistency_score_formula_witness :
    calculate_consistency_score [(5 : ℝ)] = 0 ∧
    calculate_consistency_score [(420 : ℝ), 480] =
      round2R (100 * (1 - min (popStdDev [(420 : ℝ), 480] / 120) 1)) :=
  ⟨consistency_score_formula.1 [5] (by norm_num),
   consistency_score_formula.2.1 [420, 480] (by norm_num)⟩

/-- C9: the consistency score factors through the standard deviation of
the durations, is monotonically non-increasing in that standard deviation,
and always lies in the interval [0, 100]. -/
theorem consistency_score_monotone_bounded :
    (∀ l : List ℝ, 2 ≤ l.length →
        calculate_consistency_score l = consistencyOfStd (popStdDev l)) ∧
    (∀ s t : ℝ, 0 ≤ s → s ≤ t → consistencyOfStd t ≤ consistencyOfStd s) ∧
    (∀ l : List ℝ, 0 ≤ calculate_consistency_score l ∧
        calculate_consistency_score l ≤ 100) := by
  refine ⟨?_, ?_, ?_⟩
  · intro l h
    unfold calculate_consistency_score consistencyOfStd
    rw [if_neg (by omega)]
  · intro s t hs hst
    unfold consistencyOfStd
    apply round2R_mono
    have h1 : min (s / 120) 1 ≤ min (t / 120) 1 :=
      min_le_min (by linarith) le_rfl
    linarith
  · intro l
    unfold calculate_consistency_score
    by_cases h : l.length < 2
    · rw [if_pos h]
      norm_num
    · rw [if_neg h]
      have hstd0 : 0 ≤ popStdDev l := by
        unfold popStdDev
        positivity
      have hmin0 : 0 ≤ min (popStdDev l / 120) 1 :=
        le_min (by positivity) (by norm_num)
      have hmin1 : min (popStdDev l / 120) 1 ≤ 1 := min_le_right _ _
      exact round2R_bounds (by linarith) (by linarith)

/-- Witness for `consistency_score_monotone_bounded`: a larger standard
deviation (60 vs 30) does not increase the score, and a concrete score is
within [0, 100]. -/
theorem consistency_score_monotone_bounded_witness :
    consistencyOfStd 60 ≤ consistencyOfStd 30 ∧
    (0 ≤ calculate_consistency_score [(1 : ℝ), 2, 3] ∧
      calculate_consistency_score [(1 : ℝ), 2, 3] ≤ 100) :=
  ⟨consistency_score_monotone_bounded.2.1 30 60 (by norm_num) (by norm_num),
   consistency_score_monotone_bounded.2.2 [1, 2, 3]⟩

/-! ### Trend computation (`get_recent_sleep_trends`) -/

/-- The summary statistics of the trend report, lines 569-585: every
averaged metric is null when its filtered value list is empty. -/
structure TrendStats where
  avg_hours : Option ℚ
  min_hours : Option ℚ
  max_hours : Option ℚ
  avg_quality : Option ℚ
  best_quality : Option ℤ
  lowest_quality : Option ℤ
  avg_resp : Option ℚ
  min_resp : Option ℚ
  max_resp : Option ℚ

/-- The trend-indicator block added at lines 595-601. -/
structure TrendIndicators where
  duration_trend : String
  quality_trend : String
  consistency_score : ℝ

/-- The outcome of `get_recent_sleep_trends` once the entries are in hand:
a structured error result (`format_error`) or a report, whose trend block
is present only under the line-595 guard. -/
inductive TrendResult where
  | error (msg : String)
  | report (stats : TrendStats) (trends : Option TrendIndicators)

/-- Line 562: quality values of entries whose quality is not null. -/
def trendQualities (entries : List NormEntry) : List ℤ :=
  entries.filterMap fun e => e.quality

/-- Line 563: duration values; the guard `if entry.get("duration_minutes")`
is a truthiness test, so zero durations are excluded. -/
def trendDurations (entries : List NormEntry) : List ℚ :=
  entries.filterMap fun e =>
    if e.duration_minutes = 0 then none else some e.duration_minutes

/-- Line 564: respiratory rates of entries where the field is not null. -/
def trendResps (entries : List NormEntry) : List ℚ :=
  entries.filterMap fun e => e.respiratory_rate

/-- The `summary_stats` block of lines 569-585. -/
def trendStats (entries : List NormEntry) : TrendStats :=
  let durations := trendDurations entries
  let qs := trendQualities entries
  let rs := trendResps entries
  { avg_hours := if durations = [] then none
      else some (round2 (durations.sum / (durations.length : ℚ) / 60))
    min_hours := durations.min?.map fun m => round2 (m / 60)
    max_hours := durations.max?.map fun m => round2 (m / 60)
    avg_quality := if qs = [] then none
      else some (round2 ((qs.sum : ℚ) / (qs.length : ℚ)))
    best_quality := qs.max?
    lowest_quality := qs.min?
    avg_resp := if rs = [] then none
      else some (round2 (rs.sum / (rs.length : ℚ)))
    min_resp := rs.min?.map round2
    max_resp := rs.max?.map round2 }

/-- The core of `get_recent_sleep_trends` (lines 557-603) as a function of
the fetched entry list: the empty-input guard of line 558, the summary
statistics, and the trend-indicator block guarded by
`len(durations) > 1` (line 595).  Inside the block, `quality_scores[-1]`
is evaluated unconditionally, so an empty quality list raises `IndexError`,
which the enclosing `except` turns into an error result. -/
noncomputable def computeTrends (entries : List NormEntry) : TrendResult :=
  if entries = [] then TrendResult.error "No sleep data available for trend analysis"
  else
    let durations := trendDurations entries
    let qs := trendQualities entries
    if 1 < durations.length then
      match qs with
      | [] => TrendResult.error "Trend analysis failed: list index out of range"
      | _ :: _ =>
          TrendResult.report (trendStats entries) (some
            { duration_trend :=
                if durations.getLastD 0 > durations.headD 0 then "improving"
                else "declining"
              quality_trend :=
                if qs.getLastD 0 > qs.headD 0 then "improving" else "declining"
              consistency_score :=
                calculate_consistency_score (durations.map fun q => (q : ℝ)) })
    else TrendResult.report (trendStats entries) none

/-- True exactly on the `format_error` outcomes. -/
def TrendResult.isError : TrendResult → Bool
  | .error _ => true
  | .report _ _ => false

/-- The reported duration trend label, when a trend block is present. -/
def TrendResult.durationTrend? : TrendResult → Option String
  | .report _ (some t) => some t.duration_trend
  | _ => none

/-- The reported quality trend label, when a trend block is present. -/
def TrendResult.qualityTrend? : TrendResult → Option String
  | .report _ (some t) => some t.quality_trend
  | _ => none

/-- C2 counterexample: on the empty entry sequence `get_recent_sleep_trends`
returns the structured error result, not a non-error report with null
metrics and a 0.0 consistency score. -/
theorem computeTrends_empty_is_error :
    computeTrends [] = TrendResult.error "No sleep data available for trend analysis" := by
  simp [computeTrends]

/-- C2 (amended): on an empty entry sequence `get_recent_sleep_trends`
returns a structured error result — it never raises, but it also does not
produce the null-metric report; for (possibly nonempty) inputs the averaged
metrics are null exactly when their filtered value lists are empty. -/
theorem computeTrends_empty_spec :
    (computeTrends []).isError = true ∧
    (∀ entries : List NormEntry, trendDurations entries = [] →
        (trendStats entries).avg_hours = none) ∧
    (∀ entries : List NormEntry, trendQualities entries = [] →
        (trendStats entries).avg_quality = none) ∧
    (∀ entries : List NormEntry, trendResps entries = [] →
        (trendStats entries).avg_resp = none) := by
  refine ⟨by simp [computeTrends, TrendResult.isError], ?_, ?_, ?_⟩
  all_goals intro entries h
  all_goals simp [trendStats, h]

/-- A single entry with a zero duration and no quality or respiratory
values: all three metric lists filter to empty. -/
def zeroEntry : NormEntry :=
  { date := "d", start_time := "s", end_time := "e",
    duration_minutes := 0, quality := none, respiratory_rate := none }

/-- Witness for `computeTrends_empty_spec`: a single entry with a zero
duration, no quality and no respiratory rate yields null averages for all
three metrics. -/
theorem computeTrends_empty_spec_witness :
    (trendStats [zeroEntry]).avg_hours = none ∧
    (trendStats [zeroEntry]).avg_quality = none ∧
    (trendStats [zeroEntry]).avg_resp = none :=
  ⟨computeTrends_empty_spec.2.1 _ (by simp [trendDurations, zeroEntry]),
   computeTrends_empty_spec.2.2.1 _ (by simp [trendQualities, zeroEntry]),
   computeTrends_empty_spec.2.2.2 _ (by simp [trendResps, zeroEntry])⟩

/-- The two-entry list with a single quality value used to refute C4. -/
def cexTrendEntries : List NormEntry :=
  [{ date := "d1", start_time := "s1", end_time := "e1",
     duration_minutes := 420, quality := some 50, respiratory_rate := none },
   { date := "d2", start_time := "s2", end_time := "e2",
     duration_minutes := 480, quality := none, respiratory_rate := none }]

/-- C4 counterexample: with two duration points but only one quality data
point, the code still reports a quality direction — "declining" — although
fewer than 2 quality data points exist. -/
theorem quality_trend_single_point :
    (computeTrends cexTrendEntries).qualityTrend? = some "declining" := by
  have hd : trendDurations cexTrendEntries = [420, 480] := by
    norm_num [trendDurations, cexTrendEntries, List.filterMap_cons]
  have hq : trendQualities cexTrendEntries = [50] := by
    norm_num [trendQualities, cexTrendEntries, List.filterMap_cons]
  have hne : cexTrendEntries ≠ [] := by simp [cexTrendEntries]
  simp [computeTrends, hne, hd, hq, TrendResult.qualityTrend?]

/-- C4 (amended): the first-vs-last labels are as claimed, but the gate for
the whole trend block is `len(durations) > 1` alone: with at most one
duration value no direction is reported for either metric; with more than
one duration value the quality direction is computed whenever at least one
quality value exists (a single quality value reads "declining"), and with
no quality values the call returns an error instead of omitting the
direction. -/
theorem trend_direction_spec :
    (∀ entries : List NormEntry, (trendDurations entries).length ≤ 1 →
        (computeTrends entries).durationTrend? = none ∧
        (computeTrends entries).qualityTrend? = none) ∧
    (∀ entries : List NormEntry, 1 < (trendDurations entries).length →
        trendQualities entries = [] →
        computeTrends entries =
          TrendResult.error "Trend analysis failed: list index out of range") ∧
    (∀ entries : List NormEntry, 1 < (trendDurations entries).length →
        trendQualities entries ≠ [] →
        (computeTrends entries).durationTrend? =
          some (if (trendDurations entries).getLastD 0 > (trendDurations entries).headD 0
                then "improving" else "declining") ∧
        (computeTrends entries).qualityTrend? =
          some (if (trendQualities entries).getLastD 0 > (trendQualities entries).headD 0
                then "improving" else "declining")) := by
  refine ⟨?_, ?_, ?_⟩
  · intro entries h
    by_cases he : entries = []
    · subst he
      simp [computeTrends, TrendResult.durationTrend?, TrendResult.qualityTrend?]
    · have hlen : ¬ 1 < (trendDurations entries).length := by omega
      simp [computeTrends, he, hlen, TrendResult.durationTrend?,
        TrendResult.qualityTrend?]
  · intro entries h hq
    have he : entries ≠ [] := by
      intro h0
      rw [h0] at h
      simp [trendDurations] at h
    simp [computeTrends, he, h, hq]
  · intro entries h hq
    have he : entries ≠ [] := by
      intro h0
      rw [h0] at h
      simp [trendDurations] at h
    obtain ⟨q0, qrest, hq2⟩ := List.exists_cons_of_ne_nil hq
    simp [computeTrends, he, h, hq2, TrendResult.durationTrend?,
      TrendResult.qualityTrend?]

/-- Two entries with increasing durations and increasing qualities, for the
witness below. -/
def witTrendEntries : List NormEntry :=
  [{ date := "d1", start_time := "s1", end_time := "e1",
     duration_minutes := 420, quality := some 50, respiratory_rate := none },
   { date := "d2", start_time := "s2", end_time := "e2",
     duration_minutes := 480, quality := some 60, respiratory_rate := none }]

/-- Witness for `trend_direction_spec`: durations [420, 480] and qualities
[50, 60] are both reported as "improving". -/
theorem trend_direction_spec_witness :
    (computeTrends witTrendEntries).durationTrend? = some "improving" ∧
    (computeTrends witTrendEntries).qualityTrend? = some "improving" := by
  have hd : trendDurations witTrendEntries = [420, 480] := by
    norm_num [trendDurations, witTrendEntries, List.filterMap_cons]
  have hq : trendQualities witTrendEntries = [50, 60] := by
    norm_num [trendQualities, witTrendEntries, List.filterMap_cons]
  have h := trend_direction_spec.2.2 witTrendEntries (by rw [hd]; norm_num)
    (by rw [hq]; simp)
  rw [h.1, h.2, hd, hq]
  norm_num

/-! ### Single-page fetch (`get_sleep_data`) and the pagination loops -/

/-- The decoded outcome of one HTTP request: a raised exception (transport
failure, or a non-2xx answer via `raise_for_status` — both reach the same
`except` handlers), a body with `status == "success"` (which per the API
contract carries `data` and a `pagination` object with `total` and an
optional `next` cursor; a null or empty cursor is `none`), or a
non-success body (which carries no `pagination`). -/
inductive ApiOutcome where
  | raise (msg : String)
  | success (records : List RawRecord) (next : Option String) (total : ℕ)
  | failureBody

/-- The result of `get_sleep_data`: a `format_error` value, or the payload
of lines 429-438 (normalized entries, `pagination.next`, `pagination.total`). -/
inductive SleepDataResult where
  | error (msg : String)
  | ok (entries : List NormEntry) (next : Option String) (total : ℕ)

/-- `get_sleep_data` (lines 366-447) as a function of the configured token
and the outcome of its single HTTP request, paired with the number of HTTP
requests it issues.  With no token it fails fast before any request (lines
374-375).  Otherwise the one request is made; a raised exception is caught
and reported (the transport-handler message is used here), and a
non-success body or an empty `data` list hits the `else` of line 439. -/
def get_sleep_data (token : Option String) (resp : ApiOutcome) :
    SleepDataResult × ℕ :=
  match token with
  | none => (SleepDataResult.error "No API token configured", 0)
  | some _ =>
    match resp with
    | ApiOutcome.raise msg =>
        (SleepDataResult.error ("API request failed: " ++ msg), 1)
    | ApiOutcome.failureBody =>
        (SleepDataResult.error "No sleep data available or invalid response", 1)
    | ApiOutcome.success records next total =>
        if records = [] then
          (SleepDataResult.error "No sleep data available or invalid response", 1)
        else (SleepDataResult.ok (normalizePage records) next total, 1)

/-- Why a pagination loop stopped (model instrumentation, no behaviour). -/
inductive ExitCause where
  | limit
  | noCursor
  | badBody
  deriving DecidableEq

/-- The outcome of `search_sleep_by_date`; the request counter and the exit
cause are model instrumentation. -/
inductive SearchOutcome where
  | error (msg : String) (requests : ℕ)
  | result (entries : List NormEntry) (reportedPages : ℕ) (hasMore : Bool)
      (total : ℕ) (cause : ExitCause) (requests : ℕ)

/-- The HTTP requests the outcome records. -/
def SearchOutcome.requests : SearchOutcome → ℕ
  | .error _ r => r
  | .result _ _ _ _ _ r => r

/-- The `pages_fetched` value of the output summary, when one is emitted. -/
def SearchOutcome.reportedPages? : SearchOutcome → Option ℕ
  | .result _ p _ _ _ _ => some p
  | _ => none

/-- The exit cause, when a summary is emitted. -/
def SearchOutcome.cause? : SearchOutcome → Option ExitCause
  | .result _ _ _ _ c _ => some c
  | _ => none

/-- Lines 340-364: the rendering after the loop of `search_sleep_by_date`.
`pag` is the `pagination.total` of the last decoded body, when that body
carried one.  A nonempty accumulation reads `data["pagination"]["total"]`
(line 350), which raises `KeyError` — caught by the outer handler — when
the last body was a non-success body; an empty accumulation is the
"No sleep data available" error of line 360. -/
def searchFinish (acc : List NormEntry) (pagesFetched requests : ℕ)
    (nextTok : Option String) (pag : Option ℕ) (cause : ExitCause) :
    SearchOutcome :=
  if acc = [] then
    SearchOutcome.error "No sleep data available for the specified date range" requests
  else
    match pag with
    | none => SearchOutcome.error "Date search failed: 'pagination'" requests
    | some total =>
        SearchOutcome.result acc (pagesFetched + 1) nextTok.isSome total cause
          requests

/-- The pagination loop of `search_sleep_by_date` (lines 274-338) plus the
post-loop rendering.  `api k` is the decoded outcome of the k-th HTTP
request of the call.  Note there is no missing-token guard: the request is
issued with whatever `Authorization` header results from the configured
token.  `pagesFetched` mirrors the `pages_fetched` counter exactly — in
particular it is not incremented on any `break` path — and `requests`
counts HTTP requests issued. -/
def searchLoop (api : ℕ → ApiOutcome) (maxPages pagesFetched requests : ℕ)
    (nextTok : Option String) (acc : List NormEntry) (lastPag : Option ℕ) :
    SearchOutcome :=
  if _h : pagesFetched < maxPages then
    match api requests with
    | ApiOutcome.raise msg =>
        SearchOutcome.error ("Date search failed: " ++ msg) (requests + 1)
    | ApiOutcome.failureBody =>
        searchFinish acc pagesFetched (requests + 1) nextTok none ExitCause.badBody
    | ApiOutcome.success records next total =>
        if records = [] then
          searchFinish acc pagesFetched (requests + 1) nextTok (some total)
            ExitCause.badBody
        else
          match next with
          | none =>
              searchFinish (acc ++ normalizePage records) pagesFetched
                (requests + 1) none (some total) ExitCause.noCursor
          | some t =>
              searchLoop api maxPages (pagesFetched + 1) (requests + 1)
                (some t) (acc ++ normalizePage records) (some total)
  else searchFinish acc pagesFetched requests nextTok lastPag ExitCause.limit
  termination_by maxPages - pagesFetched
  decreasing_by omega

/-- `search_sleep_by_date` (lines 262-364): empty accumulation, no cursor,
zero counters; the token is carried only into the request header. -/
def search_sleep_by_date (_token : Option String) (api : ℕ → ApiOutcome)
    (maxPages : ℕ) : SearchOutcome :=
  searchLoop api maxPages 0 0 none [] none

/-- The outcome of `get_all_sleep_data`; request counter and exit cause are
model instrumentation. -/
inductive AllOutcome where
  | error (msg : String) (requests : ℕ)
  | result (entries : List NormEntry) (reportedPages : ℕ) (hasMore : Bool)
      (cause : ExitCause) (requests : ℕ)

/-- The HTTP requests the outcome records. -/
def AllOutcome.requests : AllOutcome → ℕ
  | .error _ r => r
  | .result _ _ _ _ r => r

/-- The `pages_fetched` value of the output payload, when one is emitted. -/
def AllOutcome.reportedPages? : AllOutcome → Option ℕ
  | .result _ p _ _ _ => some p
  | _ => none

/-- The exit cause, when a payload is emitted. -/
def AllOutcome.cause? : AllOutcome → Option ExitCause
  | .result _ _ _ c _ => some c
  | _ => none

/-- The pagination loop of `get_all_sleep_data` (lines 456-486): each
iteration is one `get_sleep_data` call (`api k` the HTTP outcome of the
k-th call); an `"error" in data` answer is returned as is (line 465), and
otherwise entries accumulate, the cursor is read, and the loop breaks
before incrementing `pages_fetched` when the cursor is absent; the final
payload reports `pages_fetched + 1` (line 480) and
`has_more = bool(next_token)` (line 481). -/
def getAllLoop (token : Option String) (api : ℕ → ApiOutcome)
    (maxPages pagesFetched requests : ℕ) (nextTok : Option String)
    (acc : List NormEntry) : AllOutcome :=
  if h : pagesFetched < maxPages then
    match get_sleep_data token (api pagesFetched) with
    | (SleepDataResult.error msg, r) => AllOutcome.error msg (requests + r)
    | (SleepDataResult.ok entries next _total, r) =>
        match next with
        | none =>
            AllOutcome.result (acc ++ entries) (pagesFetched + 1) false
              ExitCause.noCursor (requests + r)
        | some t =>
            getAllLoop token api maxPages (pagesFetched + 1) (requests + r)
              (some t) (acc ++ entries)
  else
    AllOutcome.result acc (pagesFetched + 1) nextTok.isSome ExitCause.limit requests
  termination_by maxPages - pagesFetched
  decreasing_by omega

/-- `get_all_sleep_data` (lines 449-489). -/
def get_all_sleep_data (token : Option String) (api : ℕ → ApiOutcome)
    (maxPages : ℕ) : AllOutcome :=
  getAllLoop token api maxPages 0 0 none []

theorem searchFinish_cases (acc : List NormEntry) (pf rq : ℕ) (tok : Option String)
    (pag : Option ℕ) (cause : ExitCause) :
    (∃ msg, searchFinish acc pf rq tok pag cause = SearchOutcome.error msg rq) ∨
    (∃ total, searchFinish acc pf rq tok pag cause =
        SearchOutcome.result acc (pf + 1) tok.isSome total cause rq) := by
  unfold searchFinish
  split_ifs
  · exact Or.inl ⟨_, rfl⟩
  · cases pag with
    | none => exact Or.inl ⟨_, rfl⟩
    | some t => exact Or.inr ⟨t, rfl⟩

theorem searchLoop_master (api : ℕ → ApiOutcome) (maxPages : ℕ) :
    ∀ (n pf rq : ℕ) (tok : Option String) (acc : List NormEntry) (pag : Option ℕ),
      maxPages - pf = n → rq = pf → pf ≤ maxPages →
      (searchLoop api maxPages pf rq tok acc pag).requests ≤ maxPages ∧
      ((searchLoop api maxPages pf rq tok acc pag).cause? = some ExitCause.limit →
        (searchLoop api maxPages pf rq tok acc pag).reportedPages? =
          some (maxPages + 1) ∧
        (searchLoop api maxPages pf rq tok acc pag).requests = maxPages) ∧
      ((searchLoop api maxPages pf rq tok acc pag).cause? = some ExitCause.noCursor →
        (searchLoop api maxPages pf rq tok acc pag).reportedPages? =
          some ((searchLoop api maxPages pf rq tok acc pag).requests)) := by
  intro n
  induction n with
  | zero =>
    intro pf rq tok acc pag hn hrq hle
    rw [searchLoop, dif_neg (by omega)]
    rcases searchFinish_cases acc pf rq tok pag ExitCause.limit with
      ⟨msg, hf⟩ | ⟨total, hf⟩
    all_goals refine ⟨?_, ?_, ?_⟩
    · simp only [hf, SearchOutcome.requests]
      omega
    · intro hc
      simp [hf, SearchOutcome.cause?] at hc
    · intro hc
      simp [hf, SearchOutcome.cause?] at hc
    · simp only [hf, SearchOutcome.requests]
      omega
    · intro _
      simp only [hf, SearchOutcome.reportedPages?, SearchOutcome.requests]
      have hpf : pf = maxPages := by omega
      subst hpf
      exact ⟨rfl, by omega⟩
    · intro hc
      simp [hf, SearchOutcome.cause?] at hc
  | succ n ih =>
    intro pf rq tok acc pag hn hrq hle
    have hlt : pf < maxPages := by omega
    rw [searchLoop, dif_pos hlt]
    split
    · refine ⟨?_, ?_, ?_⟩
      · simp only [SearchOutcome.requests]
        omega
      · intro hc
        simp [SearchOutcome.cause?] at hc
      · intro hc
        simp [SearchOutcome.cause?] at hc
    · rcases searchFinish_cases acc pf (rq + 1) tok none ExitCause.badBody with
        ⟨msg, hf⟩ | ⟨total, hf⟩
      all_goals refine ⟨?_, ?_, ?_⟩
      · simp only [hf, SearchOutcome.requests]
        omega
      · intro hc
        simp [hf, SearchOutcome.cause?] at hc
      · intro hc
        simp [hf, SearchOutcome.cause?] at hc
      · simp only [hf, SearchOutcome.requests]
        omega
      · intro hc
        simp [hf, SearchOutcome.cause?] at hc
      · intro hc
        simp [hf, SearchOutcome.cause?] at hc
    · rename_i records next total heq
      split_ifs with hrec
      · rcases searchFinish_cases acc pf (rq + 1) tok (some total) ExitCause.badBody
          with ⟨msg, hf⟩ | ⟨t2, hf⟩
        all_goals refine ⟨?_, ?_, ?_⟩
        · simp only [hf, SearchOutcome.requests]
          omega
        · intro hc
          simp [hf, SearchOutcome.cause?] at hc
        · intro hc
          simp [hf, SearchOutcome.cause?] at hc
        · simp only [hf, SearchOutcome.requests]
          omega
        · intro hc
          simp [hf, SearchOutcome.cause?] at hc
        · intro hc
          simp [hf, SearchOutcome.cause?] at hc
      · cases next with
        | none =>
            rcases searchFinish_cases (acc ++ normalizePage records) pf (rq + 1)
              none (some total) ExitCause.noCursor with ⟨msg, hf⟩ | ⟨t2, hf⟩
            all_goals refine ⟨?_, ?_, ?_⟩
            · simp only [hf, SearchOutcome.requests]
              omega
            · intro hc
              simp [hf, SearchOutcome.cause?] at hc
            · intro hc
              simp [hf, SearchOutcome.cause?] at hc
            · simp only [hf, SearchOutcome.requests]
              omega
            · intro hc
              simp [hf, SearchOutcome.cause?] at hc
            · intro _
              simp only [hf, SearchOutcome.reportedPages?, SearchOutcome.requests]
              exact congrArg some (by omega)
        | some t =>
            exact ih (pf + 1) (rq + 1) (some t) (acc ++ normalizePage records)
              (some total) (by omega) (by omega) (by omega)

theorem get_sleep_data_some_requests (t : String) (resp : ApiOutcome) :
    (get_sleep_data (some t) resp).2 = 1 := by
  cases resp with
  | raise m => rfl
  | failureBody => rfl
  | success records next total =>
      by_cases h : records = [] <;> simp [get_sleep_data, h]

theorem getAllLoop_master (t : String) (api : ℕ → ApiOutcome) (maxPages : ℕ) :
    ∀ (n pf rq : ℕ) (tok : Option String) (acc : List NormEntry),
      maxPages - pf = n → rq = pf → pf ≤ maxPages →
      (getAllLoop (some t) api maxPages pf rq tok acc).requests ≤ maxPages ∧
      ((getAllLoop (some t) api maxPages pf rq tok acc).cause? = some ExitCause.limit →
        (getAllLoop (some t) api maxPages pf rq tok acc).reportedPages? =
          some (maxPages + 1) ∧
        (getAllLoop (some t) api maxPages pf rq tok acc).requests = maxPages) ∧
      ((getAllLoop (some t) api maxPages pf rq tok acc).cause? = some ExitCause.noCursor →
        (getAllLoop (some t) api maxPages pf rq tok acc).reportedPages? =
          some ((getAllLoop (some t) api maxPages pf rq tok acc).requests)) := by
  intro n
  induction n with
  | zero =>
    intro pf rq tok acc hn hrq hle
    rw [getAllLoop, dif_neg (by omega)]
    refine ⟨?_, ?_, ?_⟩
    · simp only [AllOutcome.requests]
      omega
    · intro _
      simp only [AllOutcome.reportedPages?, AllOutcome.requests]
      have hpf : pf = maxPages := by omega
      subst hpf
      exact ⟨rfl, by omega⟩
    · intro hc
      simp [AllOutcome.cause?] at hc
  | succ n ih =>
    intro pf rq tok acc hn hrq hle
    have hlt : pf < maxPages := by omega
    rw [getAllLoop, dif_pos hlt]
    split
    · rename_i msg r heq
      have hr : r = 1 := by
        have h2 := get_sleep_data_some_requests t (api pf)
        rw [heq] at h2
        exact h2
      refine ⟨?_, ?_, ?_⟩
      · simp only [AllOutcome.requests]
        omega
      · intro hc
        simp [AllOutcome.cause?] at hc
      · intro hc
        simp [AllOutcome.cause?] at hc
    · rename_i entries next _total r heq
      have hr : r = 1 := by
        have h2 := get_sleep_data_some_requests t (api pf)
        rw [heq] at h2
        exact h2
      cases next with
      | none =>
          refine ⟨?_, ?_, ?_⟩
          · simp only [AllOutcome.requests]
            omega
          · intro hc
            simp [AllOutcome.cause?] at hc
          · intro _
            simp only [AllOutcome.reportedPages?, AllOutcome.requests]
            exact congrArg some (by omega)
      | some t2 =>
          exact ih (pf + 1) (rq + r) (some t2) (acc ++ entries)
            (by omega) (by omega) (by omega)

theorem getAllLoop_no_token (api : ℕ → ApiOutcome) (maxPages pf rq : ℕ)
    (tok : Option String) (acc : List NormEntry) :
    getAllLoop none api maxPages pf rq tok acc =
      (if pf < maxPages then AllOutcome.error "No API token configured" rq
       else AllOutcome.result acc (pf + 1) tok.isSome ExitCause.limit rq) := by
  rw [getAllLoop]
  by_cases h : pf < maxPages
  · rw [dif_pos h, if_pos h]
    simp [get_sleep_data]
  · rw [dif_neg h, if_neg h]

theorem searchLoop_requests_ge (api : ℕ → ApiOutcome) (maxPages : ℕ) :
    ∀ (n pf rq : ℕ) (tok : Option String) (acc : List NormEntry) (pag : Option ℕ),
      maxPages - pf = n →
      rq ≤ (searchLoop api maxPages pf rq tok acc pag).requests := by
  intro n
  induction n with
  | zero =>
    intro pf rq tok acc pag hn
    rw [searchLoop, dif_neg (by omega)]
    rcases searchFinish_cases acc pf rq tok pag ExitCause.limit with
      ⟨m, hf⟩ | ⟨t2, hf⟩ <;>
      simp [hf, SearchOutcome.requests]
  | succ n ih =>
    intro pf rq tok acc pag hn
    have hlt : pf < maxPages := by omega
    rw [searchLoop, dif_pos hlt]
    split
    · simp only [SearchOutcome.requests]
      omega
    · rcases searchFinish_cases acc pf (rq + 1) tok none ExitCause.badBody with
        ⟨m, hf⟩ | ⟨t2, hf⟩ <;>
        simp only [hf, SearchOutcome.requests] <;> omega
    · rename_i records next total heq
      split_ifs with hrec
      · rcases searchFinish_cases acc pf (rq + 1) tok (some total) ExitCause.badBody
          with ⟨m, hf⟩ | ⟨t2, hf⟩ <;>
          simp only [hf, SearchOutcome.requests] <;> omega
      · cases next with
        | none =>
            rcases searchFinish_cases (acc ++ normalizePage records) pf (rq + 1)
              none (some total) ExitCause.noCursor with ⟨m, hf⟩ | ⟨t2, hf⟩ <;>
              simp only [hf, SearchOutcome.requests] <;> omega
        | some t2 =>
            have hrec2 := ih (pf + 1) (rq + 1) (some t2) (acc ++ normalizePage records)
              (some total) (by omega)
            exact Nat.le_trans (Nat.le_succ rq) hrec2

theorem searchLoop_requests_pos (api : ℕ → ApiOutcome) (maxPages pf rq : ℕ)
    (tok : Option String) (acc : List NormEntry) (pag : Option ℕ)
    (hlt : pf < maxPages) :
    rq + 1 ≤ (searchLoop api maxPages pf rq tok acc pag).requests := by
  rw [searchLoop, dif_pos hlt]
  split
  · simp only [SearchOutcome.requests]
    omega
  · rcases searchFinish_cases acc pf (rq + 1) tok none ExitCause.badBody with
      ⟨m, hf⟩ | ⟨t2, hf⟩ <;>
      simp only [hf, SearchOutcome.requests] <;> omega
  · rename_i records next total heq
    split_ifs with hrec
    · rcases searchFinish_cases acc pf (rq + 1) tok (some total) ExitCause.badBody
        with ⟨m, hf⟩ | ⟨t2, hf⟩ <;>
        simp only [hf, SearchOutcome.requests] <;> omega
    · cases next with
      | none =>
          rcases searchFinish_cases (acc ++ normalizePage records) pf (rq + 1)
            none (some total) ExitCause.noCursor with ⟨m, hf⟩ | ⟨t2, hf⟩ <;>
            simp only [hf, SearchOutcome.requests] <;> omega
      | some t2 =>
          exact searchLoop_requests_ge api maxPages (maxPages - (pf + 1)) (pf + 1)
            (rq + 1) (some t2) (acc ++ normalizePage records) (some total) rfl

/-- C8: for every response sequence, token and page limit, neither
pagination loop issues more than `maxPages` HTTP requests before
terminating: this bounds both `search_sleep_by_date` and
`get_all_sleep_data`. -/
theorem pagination_request_bound (token : Option String) (api : ℕ → ApiOutcome)
    (maxPages : ℕ) :
    (search_sleep_by_date token api maxPages).requests ≤ maxPages ∧
    (get_all_sleep_data token api maxPages).requests ≤ maxPages := by
  constructor
  · exact (searchLoop_master api maxPages maxPages 0 0 none [] none (by omega) rfl
      (by omega)).1
  · cases token with
    | none =>
        unfold get_all_sleep_data
        rw [getAllLoop_no_token]
        split_ifs <;> simp [AllOutcome.requests]
    | some t =>
        exact (getAllLoop_master t api maxPages maxPages 0 0 none [] (by omega) rfl
          (by omega)).1

/-- C10: when a pagination loop stops because the `maxPages` limit is
reached, the reported `pages_fetched` is `maxPages + 1` — one more than
the number of HTTP requests actually issued — while a stop by cursor
exhaustion reports `pages_fetched` equal to the actual number of
requests; this holds for both `search_sleep_by_date` and
`get_all_sleep_data`. -/
theorem pages_fetched_off_by_one (token : Option String) (api : ℕ → ApiOutcome)
    (maxPages : ℕ) :
    ((search_sleep_by_date token api maxPages).cause? = some ExitCause.limit →
      (search_sleep_by_date token api maxPages).reportedPages? =
        some (maxPages + 1) ∧
      (search_sleep_by_date token api maxPages).requests = maxPages) ∧
    ((search_sleep_by_date token api maxPages).cause? = some ExitCause.noCursor →
      (search_sleep_by_date token api maxPages).reportedPages? =
        some ((search_sleep_by_date token api maxPages).requests)) ∧
    ((get_all_sleep_data token api maxPages).cause? = some ExitCause.limit →
      (get_all_sleep_data token api maxPages).reportedPages? =
        some (maxPages + 1) ∧
      (get_all_sleep_data token api maxPages).requests = maxPages) ∧
    ((get_all_sleep_data token api maxPages).cause? = some ExitCause.noCursor →
      (get_all_sleep_data token api maxPages).reportedPages? =
        some ((get_all_sleep_data token api maxPages).requests)) := by
  have hs := searchLoop_master api maxPages maxPages 0 0 none [] none (by omega) rfl
    (by omega)
  refine ⟨hs.2.1, hs.2.2, ?_, ?_⟩
  · cases token with
    | none =>
        unfold get_all_sleep_data
        rw [getAllLoop_no_token]
        by_cases h0 : 0 < maxPages
        · rw [if_pos h0]
          intro hc
          simp [AllOutcome.cause?] at hc
        · rw [if_neg h0]
          intro _
          simp only [AllOutcome.reportedPages?, AllOutcome.requests]
          have hz : maxPages = 0 := by omega
          subst hz
          exact ⟨rfl, rfl⟩
    | some t =>
        exact (getAllLoop_master t api maxPages maxPages 0 0 none [] (by omega) rfl
          (by omega)).2.1
  · cases token with
    | none =>
        unfold get_all_sleep_data
        rw [getAllLoop_no_token]
        split_ifs <;> intro hc <;> simp [AllOutcome.cause?] at hc
    | some t =>
        exact (getAllLoop_master t api maxPages maxPages 0 0 none [] (by omega) rfl
          (by omega)).2.2

/-- A well-formed raw record used by the loop witnesses below. -/
def rawW : RawRecord :=
  { start_time := "2024-01-01T00:00:00Z", end_time := "2024-01-01T08:00:00Z",
    duration := some (JNum.num 28800), quality := some (JNum.num 90),
    respiratory_rate := none }

/-- An API whose every page answers one record and a further cursor. -/
def apiCursor : ℕ → ApiOutcome := fun _ => ApiOutcome.success [rawW] (some "t") 5

/-- An API whose every page answers one record and no cursor. -/
def apiEnd : ℕ → ApiOutcome := fun _ => ApiOutcome.success [rawW] none 5

/-- Witness for `pages_fetched_off_by_one`: a limit-terminated search run
(limit 1, cursor still live) reports 2 pages after 1 request, a
cursor-exhausted search run reports exactly its request count, and the
same for `get_all_sleep_data`. -/
theorem pages_fetched_off_by_one_witness :
    ((search_sleep_by_date (some "k") apiCursor 1).reportedPages? = some 2 ∧
      (search_sleep_by_date (some "k") apiCursor 1).requests = 1) ∧
    ((search_sleep_by_date (some "k") apiEnd 3).reportedPages? =
      some ((search_sleep_by_date (some "k") apiEnd 3).requests)) ∧
    ((get_all_sleep_data (some "k") apiCursor 1).reportedPages? = some 2 ∧
      (get_all_sleep_data (some "k") apiCursor 1).requests = 1) ∧
    ((get_all_sleep_data (some "k") apiEnd 3).reportedPages? =
      some ((get_all_sleep_data (some "k") apiEnd 3).requests)) := by
  refine ⟨(pages_fetched_off_by_one (some "k") apiCursor 1).1 ?_,
    (pages_fetched_off_by_one (some "k") apiEnd 3).2.1 ?_,
    (pages_fetched_off_by_one (some "k") apiCursor 1).2.2.1 ?_,
    (pages_fetched_off_by_one (some "k") apiEnd 3).2.2.2 ?_⟩
  · simp [search_sleep_by_date, searchLoop, apiCursor, searchFinish, normalizePage,
      normalizeRecord, rawW, coerceDur, coerceOpt, SearchOutcome.cause?]
  · simp [search_sleep_by_date, searchLoop, apiEnd, searchFinish, normalizePage,
      normalizeRecord, rawW, coerceDur, coerceOpt, SearchOutcome.cause?]
  · simp [get_all_sleep_data, getAllLoop, apiCursor, get_sleep_data, normalizePage,
      normalizeRecord, rawW, coerceDur, coerceOpt, AllOutcome.cause?]
  · simp [get_all_sleep_data, getAllLoop, apiEnd, get_sleep_data, normalizePage,
      normalizeRecord, rawW, coerceDur, coerceOpt, AllOutcome.cause?]

/-- C5 counterexample: with no token configured, `search_sleep_by_date`
still issues its HTTP request — against a server rejecting the
unauthenticated call it performs 1 request and then reports the failure,
rather than returning an error without any request. -/
theorem search_no_token_makes_request :
    search_sleep_by_date none (fun _ => ApiOutcome.raise "401 Client Error") 3 =
      SearchOutcome.error ("Date search failed: " ++ "401 Client Error") 1 ∧
    (search_sleep_by_date none (fun _ => ApiOutcome.raise "401 Client Error") 3).requests
      = 1 := by
  have h : search_sleep_by_date none (fun _ => ApiOutcome.raise "401 Client Error") 3 =
      SearchOutcome.error ("Date search failed: " ++ "401 Client Error") 1 := by
    unfold search_sleep_by_date
    rw [searchLoop, dif_pos (by omega)]
  exact ⟨h, by rw [h]; rfl⟩

/-- C5 (amended): `get_sleep_data` with no configured token fails fast —
an error result and zero HTTP requests — but `search_sleep_by_date` has no
token guard: for every positive page limit it issues at least one HTTP
request even when no token is configured. -/
theorem missing_token_spec :
    (∀ resp : ApiOutcome, get_sleep_data none resp =
        (SleepDataResult.error "No API token configured", 0)) ∧
    (∀ (api : ℕ → ApiOutcome) (maxPages : ℕ), 0 < maxPages →
        1 ≤ (search_sleep_by_date none api maxPages).requests) := by
  constructor
  · intro resp
    rfl
  · intro api maxPages h
    exact searchLoop_requests_pos api maxPages 0 0 none [] none h

/-- Witness for `missing_token_spec`: a concrete tokenless fetch performs
no request, while a concrete tokenless search performs at least one. -/
theorem missing_token_spec_witness :
    get_sleep_data none (ApiOutcome.raise "boom") =
      (SleepDataResult.error "No API token configured", 0) ∧
    1 ≤ (search_sleep_by_date none (fun _ => ApiOutcome.failureBody) 2).requests :=
  ⟨missing_token_spec.1 _, missing_token_spec.2 _ 2 (by omega)⟩

/-- C3 counterexample: an HTTP-successful body with status "success" and no
data records makes `get_sleep_data` return an error result — the same
`format_error` shape as a transport failure — not a non-error empty
result. -/
theorem empty_success_body_error :
    get_sleep_data (some "k") (ApiOutcome.success [] none 0) =
      (SleepDataResult.error "No sleep data available or invalid response", 1) := by
  simp [get_sleep_data]

/-- C3 (amended): a success-status body with no data records yields an
error result from both fetch operations — "No sleep data available or
invalid response" from `get_sleep_data` and, when the first page is such a
body, "No sleep data available for the specified date range" from
`search_sleep_by_date` — distinguishable from a transport failure only by
the message text, not by an empty non-error outcome. -/
theorem empty_success_spec :
    (∀ (t : String) (next : Option String) (total : ℕ),
        get_sleep_data (some t) (ApiOutcome.success [] next total) =
          (SleepDataResult.error "No sleep data available or invalid response", 1)) ∧
    (∀ (token : Option String) (api : ℕ → ApiOutcome) (next : Option String)
        (total maxPages : ℕ), 0 < maxPages →
        api 0 = ApiOutcome.success [] next total →
        search_sleep_by_date token api maxPages =
          SearchOutcome.error "No sleep data available for the specified date range"
            1) := by
  constructor
  · intro t next total
    simp [get_sleep_data]
  · intro token api next total maxPages h0 hapi
    unfold search_sleep_by_date
    rw [searchLoop, dif_pos h0, hapi]
    simp [searchFinish]

/-- Witness for `empty_success_spec`: concrete empty success bodies produce
the two error results. -/
theorem empty_success_spec_witness :
    get_sleep_data (some "k") (ApiOutcome.success [] (some "n") 7) =
      (SleepDataResult.error "No sleep data available or invalid response", 1) ∧
    search_sleep_by_date (some "k") (fun _ => ApiOutcome.success [] none 0) 3 =
      SearchOutcome.error "No sleep data available for the specified date range" 1 :=
  ⟨empty_success_spec.1 "k" (some "n") 7,
   empty_success_spec.2 (some "k") _ none 0 3 (by omega) rfl⟩

end SleepAgent
